import Mathlib

/-
Verification of the portal service (Go, package main): shallow embedding of
the request-path derivation, the FileChooser and OpenURI handlers, the
Settings handlers and the bootstrap sequence, together with theorems about
the behaviour the specification describes.
-/

namespace Portal

/-- Model of strings.CutPrefix with the one-character pattern ":" as used by
newRequest: when the sender starts with a colon, the colon is removed,
otherwise the string is unchanged. -/
def cutColon (s : String) : String :=
  match s.data with
  | ':' :: rest => String.mk rest
  | _ => s

/-- Model of strings.ReplaceAll with the one-character patterns "." and "_"
as used by newRequest: every dot becomes an underscore. -/
def dotToUnderscore (s : String) : String :=
  String.mk (s.data.map (fun c => if c = '.' then '_' else c))

/-- Sender sanitization performed by newRequest: strip the leading colon
sentinel, then replace every dot with an underscore. -/
def sanitizeSender (sender : String) : String :=
  dotToUnderscore (cutColon sender)

/-- Object path computed by newRequest via Sprintf on the sanitized sender
and the caller token. -/
def requestPath (sender token : String) : String :=
  "/org/freedesktop/portal/desktop/request/" ++ sanitizeSender sender ++ "/" ++ token

/-- ASCII fragment of unicode.IsSpace; the model of strings.TrimSpace is
restricted to ASCII whitespace. -/
def goIsSpace (c : Char) : Bool :=
  c = ' ' || c = '\t' || c = '\n' || c = '\x0b' || c = '\x0c' || c = '\r'

/-- Model of strings.TrimSpace restricted to ASCII whitespace: drop leading
and trailing whitespace characters. -/
def trimSpace (s : String) : String :=
  String.mk (((s.data.dropWhile goIsSpace).reverse.dropWhile goIsSpace).reverse)

/-- Helper lemma: appending strings concatenates their character data. -/
theorem string_data_append (s t : String) : (s ++ t).data = s.data ++ t.data := by
  cases s
  cases t
  rfl

/-- Helper lemma: strings with equal character data are equal. -/
theorem string_eq_of_data {s t : String} (h : s.data = t.data) : s = t := by
  cases s
  cases t
  cases h
  rfl

/-- Helper lemma: a common list preamble cancels on both sides of an append
equation. -/
theorem list_append_cancel {α : Type} (p : List α) {xs ys : List α}
    (h : p ++ xs = p ++ ys) : xs = ys := by
  induction p with
  | nil => simpa using h
  | cons a p ih =>
    simp only [List.cons_append, List.cons.injEq] at h
    exact ih h.2

/-- Helper lemma: when neither left part contains the separator character,
an append equation around a separator splits into equations of the parts. -/
theorem slashFree_append_inj :
    ∀ (l1 l2 t1 t2 : List Char), '/' ∉ l1 → '/' ∉ l2 →
      l1 ++ '/' :: t1 = l2 ++ '/' :: t2 → l1 = l2 ∧ t1 = t2 := by
  intro l1
  induction l1 with
  | nil =>
    intro l2 t1 t2 h1 h2 h
    cases l2 with
    | nil =>
      simp only [List.nil_append, List.cons.injEq] at h
      exact ⟨rfl, h.2⟩
    | cons c l2t =>
      simp only [List.nil_append, List.cons_append, List.cons.injEq] at h
      exact absurd (by rw [← h.1]; exact List.mem_cons_self '/' l2t) h2
  | cons c l1t ih =>
    intro l2 t1 t2 h1 h2 h
    cases l2 with
    | nil =>
      simp only [List.nil_append, List.cons_append, List.cons.injEq] at h
      exact absurd (by rw [h.1]; exact List.mem_cons_self '/' l1t) h1
    | cons d l2t =>
      simp only [List.cons_append, List.cons.injEq] at h
      have h1t : '/' ∉ l1t := fun hm => h1 (List.mem_cons_of_mem c hm)
      have h2t : '/' ∉ l2t := fun hm => h2 (List.mem_cons_of_mem d hm)
      obtain ⟨he, ht⟩ := ih l2t t1 t2 h1t h2t h.2
      exact ⟨by rw [h.1, he], ht⟩

/-- Helper lemma: when the sanitized senders contain no slash, equal request
paths force equal sanitized senders and equal tokens. -/
theorem requestPath_inj {s1 t1 s2 t2 : String}
    (h1 : '/' ∉ (sanitizeSender s1).data) (h2 : '/' ∉ (sanitizeSender s2).data)
    (h : requestPath s1 t1 = requestPath s2 t2) :
    sanitizeSender s1 = sanitizeSender s2 ∧ t1 = t2 := by
  have hd := congrArg String.data h
  unfold requestPath at hd
  simp only [string_data_append, List.append_assoc] at hd
  have hd2 := list_append_cancel _ hd
  have hshape : ∀ (u : String) (l : List Char),
      u.data ++ ("/".data ++ l) = u.data ++ '/' :: l := by
    intro u l
    rfl
  rw [hshape, hshape] at hd2
  obtain ⟨he, ht⟩ := slashFree_append_inj _ _ _ _ h1 h2 hd2
  exact ⟨string_eq_of_data he, string_eq_of_data ht⟩

/-- Dynamic value stored inside a dbus.Variant, as the handlers use it: the
nil interface (value of the zero Variant produced by a map miss), a string,
a uint32, or a slice of strings. -/
inductive GoDyn where
  | nilv : GoDyn
  | str : String → GoDyn
  | u32 : Nat → GoDyn
  | strs : List String → GoDyn
deriving DecidableEq

/-- Model of dbus.Variant: a wrapper around its dynamic value; the Value
method of the source is the field projection. -/
structure GoVariant where
  value : GoDyn
deriving DecidableEq

/-- Model of the kv type of the source, map from string to dbus.Variant,
as an association list. -/
abbrev KV := List (String × GoVariant)

/-- Go map indexing on kv: a present key yields its variant, a missing key
yields the zero Variant, whose dynamic value is the nil interface. -/
def kvGet (options : KV) (k : String) : GoVariant :=
  match options.find? (fun p => p.1 == k) with
  | some p => p.2
  | none => ⟨GoDyn.nilv⟩

/-- Model of a bus error value (*dbus.Error); the only one the source
returns is dbus.ErrMsgNoObject. -/
inductive DbusError where
  | noObject : DbusError
deriving DecidableEq

/-- Content of one emission of the Request.Response signal: the object path
it is emitted on, the error code, and the results map. -/
structure ResponseSignal where
  path : String
  errcode : Nat
  results : KV
deriving DecidableEq

/-- Observable event of a detached task: a diagnostic log line, an attempt
to emit a Response signal (with the flag telling whether the bus delivered
it), or a process exit. -/
inductive Event where
  | log : String → Event
  | emit : ResponseSignal → Bool → Event
  | exit : Nat → Event
deriving DecidableEq

/-- Predicate selecting signal-emission attempts among events. -/
def Event.isEmit : Event → Bool
  | Event.emit _ _ => true
  | _ => false

/-- Predicate selecting delivered signal emissions among events. -/
def Event.isDelivered : Event → Bool
  | Event.emit _ true => true
  | _ => false

/-- Predicate selecting process-exit events among events. -/
def Event.isExit : Event → Bool
  | Event.exit _ => true
  | _ => false

/-- Predicate selecting diagnostic log lines among events. -/
def Event.isLog : Event → Bool
  | Event.log _ => true
  | _ => false

/-- Outcome of one conn.Emit call on the bus session handle: the signal is
delivered, or the handle reports an error. -/
inductive EmitOutcome where
  | delivered : EmitOutcome
  | busError : EmitOutcome
deriving DecidableEq

/-- Boolean form of the emit outcome. -/
def emitOk : EmitOutcome → Bool
  | EmitOutcome.delivered => true
  | EmitOutcome.busError => false

/-- Model of the response method of request: one conn.Emit call on the
request path; on an emit error it throws a formatted Exception. The pair
holds the events produced so far and the thrown exception message, if any. -/
def response (emit : EmitOutcome) (path : String) (errcode : Nat) (results : KV) :
    List Event × Option String :=
  match emit with
  | EmitOutcome.delivered => ([Event.emit ⟨path, errcode, results⟩ true], none)
  | EmitOutcome.busError =>
      ([Event.emit ⟨path, errcode, results⟩ false], some "can not send response")

/-- Model of try combined with catch from the exception runtime: the body
yields events plus an optional thrown exception; a thrown exception is
passed to the handler, whose events follow the ones of the body; nothing is
rethrown and the process never exits here. -/
def tryCatch (body : List Event × Option String) (onExc : String → List Event) :
    List Event :=
  match body.2 with
  | none => body.1
  | some e => body.1 ++ onExc e

/-- Outcome of exec.Command("zenity", "--file-selection").Output(): either
exit 0 with the captured standard output, or an error covering both a spawn
failure and a non-zero exit, carrying its message. -/
inductive ExecResult where
  | ok : String → ExecResult
  | err : String → ExecResult
deriving DecidableEq

/-- Detached goroutine body of OpenFile wrapped in try and catch: on a
helper error, log it and respond with error code 1 and empty results; on
success, respond with error code 0 and a one-element uris list built from
the trimmed helper output; a thrown response failure is caught and logged. -/
def openFileGoroutine (path : String) (helper : ExecResult) (emit : EmitOutcome) :
    List Event :=
  tryCatch
    (match helper with
     | ExecResult.err m =>
         let r := response emit path 1 []
         (Event.log m :: r.1, r.2)
     | ExecResult.ok out =>
         response emit path 0
           [("uris", ⟨GoDyn.strs ["file://" ++ trimSpace out]⟩)])
    (fun e => [Event.log ("in OpenFile " ++ e)])

/-- Model of FileChooser.OpenFile: the handler reads the handle_token
option, asserts it is a string (a failed assertion is a runtime panic,
modelled as Except.error), builds the request path via newRequest, launches
the detached goroutine and synchronously returns the path together with a
nil *dbus.Error. The trace of the detached goroutine is returned alongside. -/
def openFile (sender parent title : String) (options : KV)
    (helper : ExecResult) (emit : EmitOutcome) :
    Except String (String × Option DbusError × List Event) :=
  match (kvGet options "handle_token").value with
  | GoDyn.str tok =>
      Except.ok (requestPath sender tok, none,
        openFileGoroutine (requestPath sender tok) helper emit)
  | _ => Except.error "interface conversion: not a string"

/-- Response signal that the OpenFile goroutine attempts to emit, by
helper outcome: error code 1 with empty results on a helper failure, error
code 0 with the single file URI on success. -/
def expectedSignal (path : String) (helper : ExecResult) : ResponseSignal :=
  match helper with
  | ExecResult.err _ => ⟨path, 1, []⟩
  | ExecResult.ok out =>
      ⟨path, 0, [("uris", ⟨GoDyn.strs ["file://" ++ trimSpace out]⟩)]⟩

/-- Outcome of locating and running the xdg-open-dispatch launcher: found
and exit 0, not found on the search path, or a run error (non-zero exit),
carrying the error text. -/
inductive LaunchOutcome where
  | ok : LaunchOutcome
  | notFound : String → LaunchOutcome
  | runError : String → LaunchOutcome
deriving DecidableEq

/-- Model of xdgOpen: lookPath throws when the launcher is missing, and a
failed cmd.Run throws a formatted Exception; a clean run produces no
event. -/
def xdgOpen (launch : LaunchOutcome) : List Event × Option String :=
  match launch with
  | LaunchOutcome.ok => ([], none)
  | LaunchOutcome.notFound m =>
      ([], some ("can not find xdg-open-dispatch: " ++ m))
  | LaunchOutcome.runError m => ([], some ("xdg-open-dispatch: " ++ m))

/-- Model of OpenURI.OpenURI: the handler launches a detached goroutine
running xdgOpen under try and catch, and returns a nil *dbus.Error; it has
no object-path result and never emits a signal. -/
def openURI (parent uri : String) (launch : LaunchOutcome) :
    Option DbusError × List Event :=
  (none, tryCatch (xdgOpen launch) (fun e => [Event.log ("in OpenURI " ++ e)]))

/-- Value content of a dbus.Variant as the Settings handlers build it: a
uint32, or a pointer to a Variant (pvar none is a nil *dbus.Variant stored
as a value, pvar (some v) points to a Variant holding v). -/
inductive GoVal where
  | u32 : Nat → GoVal
  | pvar : Option GoVal → GoVal

/-- Go interface value as received by box. Following the Go conversion
rules, converting a typed pointer into the empty interface never yields the
nil interface, even when the pointer itself is nil: a nil *dbus.Variant
argument arrives as pvariant none, not as nilInterface. Only a literal
untyped nil would arrive as nilInterface. -/
inductive BoxArg where
  | nilInterface : BoxArg
  | u32 : Nat → BoxArg
  | pvariant : Option GoVal → BoxArg

/-- Model of box: a nil interface maps to a nil *dbus.Variant; anything
else is wrapped by MakeVariant, whose signature is computed from the static
type, so a typed nil pointer is wrapped without any nil check firing. The
result type Option GoVal stands for *dbus.Variant, identifying a Variant
with the value it holds. -/
def box : BoxArg → Option GoVal
  | BoxArg.nilInterface => none
  | BoxArg.u32 n => some (GoVal.u32 n)
  | BoxArg.pvariant p => some (GoVal.pvar p)

/-- Model of Settings.ReadOne: concatenate namespace, a dot and the key;
on the single static table entry return box(uint32(1)) with a nil error,
otherwise return a nil value with the no-such-object bus error. -/
def ReadOne (nspace key : String) : Option GoVal × Option DbusError :=
  if nspace ++ "." ++ key = "org.freedesktop.appearance.color-scheme" then
    (box (BoxArg.u32 1), none)
  else
    (none, some DbusError.noObject)

/-- Model of Settings.Read: call ReadOne, then box its first result again.
The first result has static type *dbus.Variant, so its conversion into the
interface parameter of box is BoxArg.pvariant, never BoxArg.nilInterface. -/
def Read (nspace key : String) : Option GoVal × Option DbusError :=
  let r := ReadOne nspace key
  (box (BoxArg.pvariant r.1), r.2)

/-- Reply values of RequestName as godbus defines them. -/
inductive RequestNameReply where
  | primaryOwner : RequestNameReply
  | inQueue : RequestNameReply
  | nameExists : RequestNameReply
  | alreadyOwner : RequestNameReply
deriving DecidableEq

/-- Environment of one bootstrap run: the result of connecting the session
bus, the result of prop.Export, and the result of the non-queuing
RequestName call (an Except.error is a bus-level failure of the call
itself). The three Export calls for the interface handlers return errors
the source ignores, so they do not appear here. -/
structure BootEnv where
  connectBus : Except String Unit
  exportProps : Except String Unit
  requestName : Except String RequestNameReply

/-- Model of bind: a failing RequestName call throws, and any reply other
than becoming primary owner throws; the optional result is the thrown
exception message. -/
def bind (r : Except String RequestNameReply) : Option String :=
  match r with
  | Except.error e =>
      some ("can not request name org.freedesktop.portal.Desktop: " ++ e)
  | Except.ok RequestNameReply.primaryOwner => none
  | Except.ok _ => some "name org.freedesktop.portal.Desktop already taken"

/-- Model of run: connect the session bus, export the handlers (errors
ignored by the source), export the property table, then bind the service
name; the first thrown exception message is returned, none when run reaches
the blocking select. -/
def run (env : BootEnv) : Option String :=
  match env.connectBus with
  | Except.error e => some ("can not connect session bus " ++ e)
  | Except.ok _ =>
      match env.exportProps with
      | Except.error e => some ("can not bind properties: " ++ e)
      | Except.ok _ => bind env.requestName

/-- Outcome of the whole process: blocked in select servicing calls, or
exited with a code and the diagnostic line written to stderr. -/
inductive RunOutcome where
  | blocked : RunOutcome
  | exited : Nat → String → RunOutcome
deriving DecidableEq

/-- Model of main: run under try; a caught Exception is fatal with exit
code 1 and an abort-prefixed diagnostic. -/
def mainRun (env : BootEnv) : RunOutcome :=
  match run env with
  | none => RunOutcome.blocked
  | some m => RunOutcome.exited 1 ("abort: " ++ m)

/-- Shared helper lemma: Read is ReadOne with one more boxing layer around
the returned pointer and the same error, uniformly in the inputs. -/
theorem read_unfold (nspace key : String) :
    Read nspace key
      = (some (GoVal.pvar (ReadOne nspace key).1), (ReadOne nspace key).2) := rfl

/-- C1: every run of FileChooser.OpenFile whose options carry a string
handle_token emits exactly one terminal Response on the constructed Request
path: on helper exit 0 a Response with error code 0 whose uris entry is the
single URI built by prefixing file:// to the trimmed helper output, and on
a helper spawn failure or non-zero exit a Response with error code 1 and an
empty results map; the filtered trace shows one emission, never zero or
two. Emission is modelled as the response call on the Request; the boolean
flag records whether the bus delivered it. -/
theorem openFile_exactly_one_response (sender parent title tok : String)
    (helper : ExecResult) (emit : EmitOutcome) :
    ∃ trace,
      openFile sender parent title [("handle_token", ⟨GoDyn.str tok⟩)] helper emit
        = Except.ok (requestPath sender tok, none, trace) ∧
      trace.filter Event.isEmit
        = [Event.emit (expectedSignal (requestPath sender tok) helper) (emitOk emit)] := by
  cases helper <;> cases emit <;> exact ⟨_, rfl, rfl⟩

/-- C2: with sender ":1.7" and handle_token "abc", OpenFile synchronously
returns the object path /org/freedesktop/portal/desktop/request/1_7/abc,
whatever the helper and bus later do; and the sanitized segment for sender
":1.42" is "1_42". -/
theorem openFile_concrete_path (parent title : String)
    (helper : ExecResult) (emit : EmitOutcome) :
    (∃ trace,
      openFile ":1.7" parent title [("handle_token", ⟨GoDyn.str "abc"⟩)] helper emit
        = Except.ok ("/org/freedesktop/portal/desktop/request/1_7/abc", none, trace)) ∧
    sanitizeSender ":1.42" = "1_42" :=
  ⟨⟨_, rfl⟩, by decide⟩

/-- C3 counterexample: the inputs (sender "a/b", token "c") and (sender
"a", token "b/c") differ in the token and in the sanitized sender, yet
newRequest derives the same path for both, because a slash in the sender or
the token shifts the path separator. -/
theorem requestPath_collision_counterexample :
    ("c" : String) ≠ "b/c" ∧ sanitizeSender "a/b" ≠ sanitizeSender "a" ∧
    requestPath "a/b" "c" = requestPath "a" "b/c" :=
  ⟨by decide, by decide, by decide⟩

/-- C3 amended: the path derived by newRequest is a pure deterministic
function of sender and token, and for inputs whose sanitized senders
contain no slash (in particular every well-formed unique bus name), a
differing token or a differing sanitized sender yields a different path. -/
theorem requestPath_functional (s1 t1 s2 t2 : String) :
    (s1 = s2 → t1 = t2 → requestPath s1 t1 = requestPath s2 t2) ∧
    ('/' ∉ (sanitizeSender s1).data → '/' ∉ (sanitizeSender s2).data →
      (t1 ≠ t2 ∨ sanitizeSender s1 ≠ sanitizeSender s2) →
      requestPath s1 t1 ≠ requestPath s2 t2) := by
  constructor
  · intro hs ht
    rw [hs, ht]
  · intro h1 h2 hne heq
    obtain ⟨he, ht⟩ := requestPath_inj h1 h2 heq
    cases hne with
    | inl h => exact h ht
    | inr h => exact h he

/-- C3 witness: two distinct well-formed senders with the same token give
distinct request paths. -/
theorem requestPath_functional_witness :
    requestPath ":1.7" "abc" ≠ requestPath ":1.8" "abc" :=
  (requestPath_functional ":1.7" "abc" ":1.8" "abc").2 (by decide) (by decide)
    (Or.inr (by decide))

/-- C4 counterexample: the pair ("org.freedesktop", "appearance.color-scheme")
differs from ("org.freedesktop.appearance", "color-scheme"), yet ReadOne
returns the boxed value 1 for it rather than a no-such-object error,
because the lookup concatenates namespace, dot and key before comparing. -/
theorem readOne_dotted_key_counterexample :
    ReadOne "org.freedesktop" "appearance.color-scheme"
      = (some (GoVal.u32 1), none) ∧
    ¬("org.freedesktop" = "org.freedesktop.appearance" ∧
      "appearance.color-scheme" = "color-scheme") :=
  ⟨rfl, by decide⟩

/-- C4 amended: ReadOne returns the boxed value 1 exactly when the
concatenation namespace ++ "." ++ key equals
"org.freedesktop.appearance.color-scheme", and a no-such-object bus error
for every other concatenation. -/
theorem readOne_table_lookup (nspace key : String) :
    (nspace ++ "." ++ key = "org.freedesktop.appearance.color-scheme" →
      ReadOne nspace key = (some (GoVal.u32 1), none)) ∧
    (nspace ++ "." ++ key ≠ "org.freedesktop.appearance.color-scheme" →
      ReadOne nspace key = (none, some DbusError.noObject)) := by
  constructor
  · intro h
    unfold ReadOne
    rw [if_pos h]
    rfl
  · intro h
    unfold ReadOne
    rw [if_neg h]

/-- C4 witness: the canonical pair hits the table and a different key
misses it. -/
theorem readOne_table_lookup_witness :
    ReadOne "org.freedesktop.appearance" "color-scheme"
      = (some (GoVal.u32 1), none) ∧
    ReadOne "org.freedesktop.appearance" "font-name"
      = (none, some DbusError.noObject) :=
  ⟨(readOne_table_lookup "org.freedesktop.appearance" "color-scheme").1 (by decide),
   (readOne_table_lookup "org.freedesktop.appearance" "font-name").2 (by decide)⟩

/-- C5: for every namespace and key, Read returns exactly the result of
ReadOne wrapped in one additional layer of variant boxing: its value is a
variant holding the pointer ReadOne returned, and its error is the error
ReadOne returned. -/
theorem read_double_boxing (nspace key : String) :
    Read nspace key
      = (some (GoVal.pvar (ReadOne nspace key).1), (ReadOne nspace key).2) := rfl

/-- C6: OpenURI returns only a nil bus error and no object path, and its
detached task emits no signal and never exits the process, for every launch
outcome; when the launcher is missing from the search path or its run
fails, the failure surfaces only as the diagnostic log line of the catch
handler. -/
theorem openURI_no_path_no_signal (parent uri : String) (launch : LaunchOutcome) :
    (openURI parent uri launch).1 = none ∧
    (openURI parent uri launch).2.filter Event.isEmit = [] ∧
    (openURI parent uri launch).2.filter Event.isExit = [] ∧
    (∀ m, launch = LaunchOutcome.notFound m →
      (openURI parent uri launch).2
        = [Event.log ("in OpenURI can not find xdg-open-dispatch: " ++ m)]) ∧
    (∀ m, launch = LaunchOutcome.runError m →
      (openURI parent uri launch).2
        = [Event.log ("in OpenURI xdg-open-dispatch: " ++ m)]) := by
  cases launch with
  | ok =>
      refine ⟨rfl, rfl, rfl, ?_, ?_⟩ <;> intro m h <;> cases h
  | notFound m0 =>
      refine ⟨rfl, rfl, rfl, ?_, ?_⟩ <;> intro m h
      · injection h with h2
        rw [← h2]
        rfl
      · cases h
  | runError m0 =>
      refine ⟨rfl, rfl, rfl, ?_, ?_⟩ <;> intro m h
      · cases h
      · injection h with h2
        rw [← h2]
        rfl

/-- C6 witness: a missing launcher leaves only the catch-handler log line
in the trace of a concrete OpenURI run. -/
theorem openURI_no_path_no_signal_witness :
    (openURI "" "https://example.org" (LaunchOutcome.notFound "not in PATH")).2
      = [Event.log "in OpenURI can not find xdg-open-dispatch: not in PATH"] :=
  (openURI_no_path_no_signal "" "https://example.org"
    (LaunchOutcome.notFound "not in PATH")).2.2.2.1 "not in PATH" rfl

/-- C7: when the options map misses the handle_token key, or holds a value
of a non-string type under it, OpenFile ends in the runtime failure of the
unchecked type assertion, modelled as Except.error, instead of returning an
object path or a modelled bus error. -/
theorem openFile_missing_token_panics (sender parent title : String) (options : KV)
    (helper : ExecResult) (emit : EmitOutcome)
    (h : ∀ s, (kvGet options "handle_token").value ≠ GoDyn.str s) :
    openFile sender parent title options helper emit
      = Except.error "interface conversion: not a string" := by
  unfold openFile
  cases hv : (kvGet options "handle_token").value with
  | nilv => rfl
  | str s => exact absurd hv (h s)
  | u32 n => rfl
  | strs l => rfl

/-- C7 witness: a call with an empty options map, hence a missing
handle_token, ends in the modelled runtime panic. -/
theorem openFile_missing_token_panics_witness :
    openFile ":1.7" "" "Open" [] (ExecResult.err "no zenity") EmitOutcome.delivered
      = Except.error "interface conversion: not a string" :=
  openFile_missing_token_panics ":1.7" "" "Open" [] (ExecResult.err "no zenity")
    EmitOutcome.delivered (fun s h => GoDyn.noConfusion h)

/-- C8: the detached OpenFile task never exits the process and makes
exactly one response attempt whatever happens; a failing signal send leaves
no delivered signal and degrades to the catch-handler log line with no
retry, and a helper failure is logged. -/
theorem openFile_task_failures_contained (path : String) (helper : ExecResult)
    (emit : EmitOutcome) :
    (openFileGoroutine path helper emit).filter Event.isExit = [] ∧
    ((openFileGoroutine path helper emit).filter Event.isEmit).length = 1 ∧
    (emit = EmitOutcome.busError →
      (openFileGoroutine path helper emit).filter Event.isDelivered = [] ∧
      Event.log "in OpenFile can not send response"
        ∈ openFileGoroutine path helper emit) ∧
    (∀ m, helper = ExecResult.err m →
      Event.log m ∈ openFileGoroutine path helper emit) := by
  cases helper with
  | ok out =>
      cases emit with
      | delivered =>
          refine ⟨rfl, rfl, ?_, ?_⟩
          · intro he
            cases he
          · intro m hm
            cases hm
      | busError =>
          refine ⟨rfl, rfl, ?_, ?_⟩
          · intro he
            exact ⟨rfl, List.mem_cons_of_mem _ (List.mem_cons_self _ _)⟩
          · intro m hm
            cases hm
  | err m0 =>
      cases emit with
      | delivered =>
          refine ⟨rfl, rfl, ?_, ?_⟩
          · intro he
            cases he
          · intro m hm
            injection hm with h2
            rw [← h2]
            exact List.mem_cons_self _ _
      | busError =>
          refine ⟨rfl, rfl, ?_, ?_⟩
          · intro he
            exact ⟨rfl, List.mem_cons_of_mem _
              (List.mem_cons_of_mem _ (List.mem_cons_self _ _))⟩
          · intro m hm
            injection hm with h2
            rw [← h2]
            exact List.mem_cons_self _ _

/-- C8 witness: with a failing helper and a failing signal send in one
concrete run, nothing is delivered and both the helper error and the send
failure appear as log lines. -/
theorem openFile_task_failures_contained_witness :
    (openFileGoroutine "/p" (ExecResult.err "exec failed")
        EmitOutcome.busError).filter Event.isDelivered = [] ∧
    Event.log "in OpenFile can not send response"
      ∈ openFileGoroutine "/p" (ExecResult.err "exec failed") EmitOutcome.busError ∧
    Event.log "exec failed"
      ∈ openFileGoroutine "/p" (ExecResult.err "exec failed") EmitOutcome.busError := by
  obtain ⟨-, -, h3, h4⟩ :=
    openFile_task_failures_contained "/p" (ExecResult.err "exec failed")
      EmitOutcome.busError
  obtain ⟨ha, hb⟩ := h3 rfl
  exact ⟨ha, hb, h4 "exec failed" rfl⟩

/-- C9: a session-bus connection failure, a rejected property export, a
failing RequestName call, or any RequestName reply other than becoming the
primary owner makes the process exit with status 1 and an abort-prefixed
diagnostic, while a fully successful bootstrap blocks servicing calls. -/
theorem bootstrap_failure_fatal (env : BootEnv) :
    (∀ e, env.connectBus = Except.error e →
      mainRun env
        = RunOutcome.exited 1 ("abort: " ++ ("can not connect session bus " ++ e))) ∧
    (∀ e, env.connectBus = Except.ok () → env.exportProps = Except.error e →
      mainRun env
        = RunOutcome.exited 1 ("abort: " ++ ("can not bind properties: " ++ e))) ∧
    (∀ e, env.connectBus = Except.ok () → env.exportProps = Except.ok () →
      env.requestName = Except.error e →
      mainRun env = RunOutcome.exited 1
        ("abort: " ++ ("can not request name org.freedesktop.portal.Desktop: " ++ e))) ∧
    (∀ r, env.connectBus = Except.ok () → env.exportProps = Except.ok () →
      env.requestName = Except.ok r → r ≠ RequestNameReply.primaryOwner →
      mainRun env = RunOutcome.exited 1
        "abort: name org.freedesktop.portal.Desktop already taken") ∧
    (env.connectBus = Except.ok () → env.exportProps = Except.ok () →
      env.requestName = Except.ok RequestNameReply.primaryOwner →
      mainRun env = RunOutcome.blocked) := by
  refine ⟨?_, ?_, ?_, ?_, ?_⟩
  · intro e h
    simp [mainRun, run, h]
  · intro e h1 h2
    simp [mainRun, run, h1, h2]
  · intro e h1 h2 h3
    simp [mainRun, run, bind, h1, h2, h3]
  · intro r h1 h2 h3 hne
    cases r with
    | primaryOwner => exact absurd rfl hne
    | inQueue => simp [mainRun, run, bind, h1, h2, h3]
    | nameExists => simp [mainRun, run, bind, h1, h2, h3]
    | alreadyOwner => simp [mainRun, run, bind, h1, h2, h3]
  · intro h1 h2 h3
    simp [mainRun, run, bind, h1, h2, h3]

/-- C9 witness: when another process already owns the service name, the
concrete bootstrap run exits with status 1 and the abort diagnostic. -/
theorem bootstrap_failure_fatal_witness :
    mainRun ⟨Except.ok (), Except.ok (), Except.ok RequestNameReply.nameExists⟩
      = RunOutcome.exited 1
          "abort: name org.freedesktop.portal.Desktop already taken" :=
  (bootstrap_failure_fatal _).2.2.2.1 RequestNameReply.nameExists rfl rfl rfl
    (fun h => RequestNameReply.noConfusion h)

/-- C10 counterexample: on the miss ("org.gnome.desktop", "font"), ReadOne
returns a nil value with the no-such-object error, but Read does not return
the same nil value: it returns a variant wrapping a nil pointer, because
the typed nil pointer passed to box is not the nil interface. -/
theorem read_miss_counterexample :
    ReadOne "org.gnome.desktop" "font" = (none, some DbusError.noObject) ∧
    Read "org.gnome.desktop" "font"
      = (some (GoVal.pvar none), some DbusError.noObject) ∧
    (Read "org.gnome.desktop" "font").1 ≠ (ReadOne "org.gnome.desktop" "font").1 := by
  refine ⟨rfl, rfl, fun h => ?_⟩
  exact Option.noConfusion h

/-- C10 amended: on every settings miss, ReadOne returns a nil value
together with the no-such-object error, while Read returns the same error
but a non-nil variant boxing a nil pointer: the nil pointer converted to
the interface argument of box is typed and therefore not caught by the nil
check, so the extra boxing layer applies to misses as well as hits. -/
theorem read_miss_wraps_nil (nspace key : String)
    (h : nspace ++ "." ++ key ≠ "org.freedesktop.appearance.color-scheme") :
    ReadOne nspace key = (none, some DbusError.noObject) ∧
    Read nspace key = (some (GoVal.pvar none), some DbusError.noObject) := by
  have h1 : ReadOne nspace key = (none, some DbusError.noObject) := by
    unfold ReadOne
    rw [if_neg h]
  refine ⟨h1, ?_⟩
  rw [read_unfold, h1]

/-- C10 witness: a concrete miss shows the asymmetry between ReadOne and
Read. -/
theorem read_miss_wraps_nil_witness :
    ReadOne "org.gnome.desktop" "monospace-font-name"
      = (none, some DbusError.noObject) ∧
    Read "org.gnome.desktop" "monospace-font-name"
      = (some (GoVal.pvar none), some DbusError.noObject) :=
  read_miss_wraps_nil "org.gnome.desktop" "monospace-font-name" (by decide)

end Portal
